import Mathlib

/-!
Verification development for the OpoQuiz quiz/test application.

The definitions below are a shallow embedding of the selection/scoring core
of the application: the SQLite tables become explicit functional state, the
`DatabaseManager` methods of `src/app/database.py` become pure state
transformers, and the grading pass of the `complete_test` HTTP handler of
`src/app/main.py` becomes a pure fold.  SQL `RANDOM()` tie-breaking is
modelled by an arbitrary tie-break function passed as a parameter, and
`CURRENT_TIMESTAMP` by an explicit `now : Nat` parameter.
-/

namespace OpoQuiz

/-- One row of the `question_usage` table (counters only; the table is keyed
by `(question_id, user_ip)`, which is `UNIQUE`).  `last_used` is a timestamp,
modelled as `Nat`. -/
structure UsageCounters where
  times_used : Nat
  last_used : Nat
  correct_count : Nat
  incorrect_count : Nat
deriving DecidableEq, Repr

/-- The `question_usage` table: at most one row per `(question_id, user_ip)`
key, per the table's `UNIQUE(question_id, user_ip)` constraint. -/
def UsageTable : Type := String × String → Option UsageCounters

/-- `COALESCE((SELECT times_used FROM question_usage WHERE ...), 0)`. -/
def timesUsedOf (o : Option UsageCounters) : Nat :=
  (o.map (fun u => u.times_used)).getD 0

/-- `COALESCE(qu.last_used, '1970-01-01')`: a missing row reads as the epoch. -/
def lastUsedOf (o : Option UsageCounters) : Nat :=
  (o.map (fun u => u.last_used)).getD 0

/-- `COALESCE((SELECT correct_count FROM question_usage WHERE ...), 0)`. -/
def correctCountOf (o : Option UsageCounters) : Nat :=
  (o.map (fun u => u.correct_count)).getD 0

/-- `COALESCE((SELECT incorrect_count FROM question_usage WHERE ...), 0)`. -/
def incorrectCountOf (o : Option UsageCounters) : Nat :=
  (o.map (fun u => u.incorrect_count)).getD 0

/-- `DatabaseManager.update_question_usage` (database.py lines 440-462):
`INSERT OR REPLACE` of the `(question_id, user_ip)` row, setting
`times_used` to the old value (0 when absent) plus 1, `last_used` to
`CURRENT_TIMESTAMP`, `correct_count` to the old value plus 1 when
`is_correct` else plus 0, and `incorrect_count` to the old value plus 0
when `is_correct` else plus 1. -/
def update_question_usage (tbl : UsageTable) (question_id user_ip : String)
    (is_correct : Bool) (now : Nat) : UsageTable :=
  fun k =>
    if k = (question_id, user_ip) then
      some
        { times_used := timesUsedOf (tbl (question_id, user_ip)) + 1
          last_used := now
          correct_count :=
            correctCountOf (tbl (question_id, user_ip)) + (if is_correct then 1 else 0)
          incorrect_count :=
            incorrectCountOf (tbl (question_id, user_ip)) + (if is_correct then 0 else 1) }
    else tbl k

/-- One row of the `questions` table (the fields the selector touches).
`question_id` is `UNIQUE`; `keywords_json` is the serialized keyword list,
which the keyword filter scans with `LIKE`. -/
structure Question where
  question_id : String
  bank_id : String
  question_text : String
  options : List String
  correct_answer : Int
  explanation : String
  difficulty : String
  category : String
  keywords_json : String
  estimated_time_seconds : Nat
deriving DecidableEq, Repr

/-- The `criteria` dict handed to `get_questions_by_criteria`; `none` models
an absent key (`criteria.get(...)` returning `None`). -/
structure Criteria where
  difficulty : Option String
  categories : Option (List String)
  keywords : Option String
  exclude_question_ids : Option (List String)
deriving Repr

/-- SQL `hay LIKE '%pat%'`: `pat` occurs as a substring of `hay`. -/
def likeContains (hay pat : String) : Bool :=
  decide (2 ≤ (hay.splitOn pat).length)

/-- The WHERE clause built by `get_questions_by_criteria` (database.py lines
367-388), with Python truthiness: an absent or falsy (`None`, `''`, `[]`)
criterion adds no condition, and `difficulty = 'mixed'` adds none either. -/
def matchesCriteria (c : Criteria) (q : Question) : Bool :=
  (match c.difficulty with
   | some d => if d = "" then true else if d = "mixed" then true else q.difficulty == d
   | none => true) &&
  (match c.categories with
   | some cats => if cats.isEmpty then true else cats.contains q.category
   | none => true) &&
  (match c.keywords with
   | some k => if k = "" then true else likeContains q.keywords_json k
   | none => true) &&
  (match c.exclude_question_ids with
   | some ids => if ids.isEmpty then true else !(ids.contains q.question_id)
   | none => true)

/-- `user_ip or 'anonymous'` (database.py line 365): `None` and the empty
string fall back to the sentinel. -/
def effectiveIp : Option String → String
  | none => "anonymous"
  | some s => if s = "" then "anonymous" else s

/-- The `ORDER BY times_used ASC, last_used ASC, RANDOM()` comparison of
`get_questions_by_criteria`, with the `RANDOM()` column modelled by an
arbitrary tie-break function `tie`. -/
def selectionLE (tbl : UsageTable) (ip : String) (tie : Question → Nat)
    (a b : Question) : Prop :=
  timesUsedOf (tbl (a.question_id, ip)) < timesUsedOf (tbl (b.question_id, ip)) ∨
    (timesUsedOf (tbl (a.question_id, ip)) = timesUsedOf (tbl (b.question_id, ip)) ∧
      (lastUsedOf (tbl (a.question_id, ip)) < lastUsedOf (tbl (b.question_id, ip)) ∨
        (lastUsedOf (tbl (a.question_id, ip)) = lastUsedOf (tbl (b.question_id, ip)) ∧
          tie a ≤ tie b)))

instance selectionLE.instDecRel (tbl : UsageTable) (ip : String) (tie : Question → Nat) :
    DecidableRel (selectionLE tbl ip tie) := fun a b => by
  unfold selectionLE; infer_instance

instance selectionLE.instIsTotal (tbl : UsageTable) (ip : String) (tie : Question → Nat) :
    IsTotal Question (selectionLE tbl ip tie) := by
  constructor; intro a b; unfold selectionLE; omega

instance selectionLE.instIsTrans (tbl : UsageTable) (ip : String) (tie : Question → Nat) :
    IsTrans Question (selectionLE tbl ip tie) := by
  constructor; intro a b c; unfold selectionLE; omega

/-- `DatabaseManager.get_questions_by_criteria` (database.py lines 353-413):
filter the pool by the criteria, left-joining the requester's usage rows,
order by `(times_used ASC, last_used ASC, RANDOM())` and truncate with
`LIMIT`. -/
def get_questions_by_criteria (pool : List Question) (tbl : UsageTable)
    (criteria : Criteria) (user_ip : Option String) (tie : Question → Nat)
    (limit : Nat) : List Question :=
  (List.insertionSort (selectionLE tbl (effectiveIp user_ip) tie)
    (pool.filter (matchesCriteria criteria))).take limit

/-- The `ORDER BY qu.incorrect_count DESC, qu.last_used ASC, RANDOM()`
comparison of `get_failed_questions`. -/
def failedLE (tbl : UsageTable) (ip : String) (tie : Question → Nat)
    (a b : Question) : Prop :=
  incorrectCountOf (tbl (b.question_id, ip)) < incorrectCountOf (tbl (a.question_id, ip)) ∨
    (incorrectCountOf (tbl (a.question_id, ip)) = incorrectCountOf (tbl (b.question_id, ip)) ∧
      (lastUsedOf (tbl (a.question_id, ip)) < lastUsedOf (tbl (b.question_id, ip)) ∨
        (lastUsedOf (tbl (a.question_id, ip)) = lastUsedOf (tbl (b.question_id, ip)) ∧
          tie a ≤ tie b)))

instance failedLE.instDecRel (tbl : UsageTable) (ip : String) (tie : Question → Nat) :
    DecidableRel (failedLE tbl ip tie) := fun a b => by
  unfold failedLE; infer_instance

instance failedLE.instIsTotal (tbl : UsageTable) (ip : String) (tie : Question → Nat) :
    IsTotal Question (failedLE tbl ip tie) := by
  constructor; intro a b; unfold failedLE; omega

instance failedLE.instIsTrans (tbl : UsageTable) (ip : String) (tie : Question → Nat) :
    IsTrans Question (failedLE tbl ip tie) := by
  constructor; intro a b c; unfold failedLE; omega

/-- `DatabaseManager.get_failed_questions` (database.py lines 415-438): the
inner join with `question_usage` keeps exactly the questions whose usage row
for `user_ip` has `incorrect_count > 0` (a missing row reads as count 0),
ordered by `incorrect_count DESC, last_used ASC, RANDOM()`, truncated by
`LIMIT`. -/
def get_failed_questions (pool : List Question) (tbl : UsageTable)
    (user_ip : String) (tie : Question → Nat) (limit : Nat) : List Question :=
  (List.insertionSort (failedLE tbl user_ip tie)
    (pool.filter (fun q => decide (0 < incorrectCountOf (tbl (q.question_id, user_ip)))))).take limit

/-- One question record of a question-bank document, with the keys that
`load_question_bank` reads (`.get` defaults applied by the caller of this
model where relevant).  `keywords_json` models `json.dumps(question.get('keywords', []))`
and `source_info` is dropped (never read back by the core). -/
structure BankQuestion where
  id : String
  question : String
  options : List String
  correct_answer : Int
  explanation : String
  difficulty : String
  category : String
  keywords_json : String
  estimated_time_seconds : Nat
deriving DecidableEq, Repr

/-- A question-bank document as handed to `load_question_bank`. -/
structure BankData where
  bank_id : String
  title : String
  questions : List BankQuestion
deriving Repr

/-- The `questions` row written for a bank question by the INSERT and UPDATE
statements of `load_question_bank` (database.py lines 309-346): both set the
same columns, so insert and update produce the same row contents. -/
def rowOfBankQuestion (bank_id : String) (q : BankQuestion) : Question :=
  { question_id := q.id
    bank_id := bank_id
    question_text := q.question
    options := q.options
    correct_answer := q.correct_answer
    explanation := q.explanation
    difficulty := q.difficulty
    category := q.category
    keywords_json := q.keywords_json
    estimated_time_seconds := q.estimated_time_seconds }

/-- The database state `load_question_bank` touches: the stored
`questions_count` per `bank_id` (from the `question_banks` metadata table;
the other metadata columns are never read back by the guard) and the
`questions` table. -/
structure BankDbState where
  bank_counts : String → Option Nat
  questions : List Question

/-- The body of the per-question loop of `load_question_bank` (database.py
lines 300-348): if a row with this `question_id` already exists (possibly
from another bank), UPDATE it in place (re-tagging it with this `bank_id`),
else INSERT a new row. -/
def upsertBankQuestion (bank_id : String) (q : BankQuestion) (qs : List Question) :
    List Question :=
  if qs.any (fun r => r.question_id == q.id) then
    qs.map (fun r => if r.question_id = q.id then rowOfBankQuestion bank_id q else r)
  else
    qs ++ [rowOfBankQuestion bank_id q]

/-- The reload path of `load_question_bank`: record the new question count
for the bank, `DELETE FROM questions WHERE bank_id = ?`, then upsert each
question of the document, counting every loop iteration. -/
def loadBankQuestions (st : BankDbState) (bank : BankData) : BankDbState × Nat :=
  let bank_counts := fun b =>
    if b = bank.bank_id then some bank.questions.length else st.bank_counts b
  let remaining := st.questions.filter (fun r => r.bank_id != bank.bank_id)
  let questions :=
    bank.questions.foldl (fun acc q => upsertBankQuestion bank.bank_id q acc) remaining
  ({ bank_counts := bank_counts, questions := questions }, bank.questions.length)

/-- `DatabaseManager.load_question_bank` (database.py lines 263-351): if the
bank is already recorded with the same declared question count, skip and
report 0; otherwise replace the bank's questions and report the number
loaded. -/
def load_question_bank (st : BankDbState) (bank : BankData) : BankDbState × Nat :=
  match st.bank_counts bank.bank_id with
  | some existing_count =>
      if existing_count = bank.questions.length then (st, 0)
      else loadBankQuestions st bank
  | none => loadBankQuestions st bank

/-- A question as the `complete_test` grading loop consumes it (the
dict-shaped dynamic-test question; `points` is read with
`question.get('points', 1)`). -/
structure DynQuestion where
  question_id : String
  question : String
  options : List String
  correct_answer : Int
  points : Option Nat
  category : String
  difficulty : String
deriving DecidableEq, Repr

/-- `question.get('points', 1)`. -/
def qPoints (q : DynQuestion) : Nat := q.points.getD 1

/-- One entry of the session's `answers_data` JSON object, as stored by
`submit_answer` (main.py lines 861-864). -/
structure SubmittedAnswer where
  selected_answer : Int
  time_spent_seconds : Nat
deriving DecidableEq, Repr

/-- `selected_answer == correct_answer` with Python semantics: a missing
submission gives `selected_answer = None`, and `None == n` is `False` for
every integer `n`. -/
def answerIsCorrect (selected : Option Int) (correct : Int) : Bool :=
  match selected with
  | some s => s == correct
  | none => false

/-- The per-bucket tally update of the grading loop (main.py lines 926-938):
create the `{'correct': 0, 'total': 0}` bucket if absent, increment `total`,
and increment `correct` when the answer is correct.  Buckets are an
association list mirroring the Python dict (insertion-ordered, unique
keys). -/
def bumpStats (stats : List (String × Nat × Nat)) (key : String) (correct : Bool) :
    List (String × Nat × Nat) :=
  let stats :=
    if stats.any (fun e => e.1 == key) then stats else stats ++ [(key, 0, 0)]
  stats.map (fun e =>
    if e.1 = key then (e.1, e.2.1 + (if correct then 1 else 0), e.2.2 + 1) else e)

/-- Look a bucket up by key ((0, 0) when absent). -/
def lookupStat (stats : List (String × Nat × Nat)) (key : String) : Nat × Nat :=
  ((stats.find? (fun e => e.1 == key)).map (fun e => e.2)).getD (0, 0)

/-- The per-question grading record `complete_test` produces (the fields of
`AnswerDetail` and of the `update_answer_details` write that the claims
mention). -/
structure GradedAnswer where
  question_id : String
  is_correct : Bool
  points_available : Nat
  points_earned : Nat
  time_spent_seconds : Nat
deriving DecidableEq, Repr

/-- Accumulator of the grading loop of `complete_test` (main.py lines
904-974). -/
structure GradeLoopAcc where
  total_points : Nat
  category_stats : List (String × Nat × Nat)
  difficulty_stats : List (String × Nat × Nat)
  details : List GradedAnswer
deriving Repr

/-- The per-question grading record one loop iteration builds (main.py lines
914-973): the submitted answer is looked up by question identifier
(`answers_data.get(q_id, {})`, so a missing submission reads as `None`),
correctness is exact match of the selected index, and the earned points are
the question's points when correct and zero otherwise — the values the
(undefined) `update_answer_details` call would persist and the response
detail reports. -/
def gradeDetail (answers : String → Option SubmittedAnswer) (q : DynQuestion) :
    GradedAnswer :=
  let selected := (answers q.question_id).map (fun a => a.selected_answer)
  let is_correct := answerIsCorrect selected q.correct_answer
  let pts := qPoints q
  { question_id := q.question_id
    is_correct := is_correct
    points_available := pts
    points_earned := if is_correct then pts else 0
    time_spent_seconds := ((answers q.question_id).map (fun a => a.time_spent_seconds)).getD 0 }

/-- One iteration of the grading loop (main.py lines 911-974): add the
question's points to the running total, bump the category and difficulty
tallies, and append the per-question grading record. -/
def gradeStep (answers : String → Option SubmittedAnswer) (acc : GradeLoopAcc)
    (q : DynQuestion) : GradeLoopAcc :=
  let is_correct :=
    answerIsCorrect ((answers q.question_id).map (fun a => a.selected_answer)) q.correct_answer
  { total_points := acc.total_points + qPoints q
    category_stats := bumpStats acc.category_stats q.category is_correct
    difficulty_stats := bumpStats acc.difficulty_stats q.difficulty is_correct
    details := acc.details ++ [gradeDetail answers q] }

/-- A per-bucket performance entry (`CategoryPerformance`, main.py lines
1007-1019). -/
structure BucketPerf where
  correct : Nat
  total : Nat
  percentage : ℚ
deriving DecidableEq, Repr

/-- `correct / total * 100 if total > 0 else 0` (main.py lines 1010, 1018). -/
def bucketPerf (s : Nat × Nat) : BucketPerf :=
  { correct := s.1
    total := s.2
    percentage := if 0 < s.2 then (s.1 : ℚ) / (s.2 : ℚ) * 100 else 0 }

/-- `(points_earned / total_points * 100) if total_points > 0 else 0`
(main.py line 983). -/
def scorePercentage (points_earned total_points : Nat) : ℚ :=
  if 0 < total_points then (points_earned : ℚ) / (total_points : ℚ) * 100 else 0

/-- The grading result `complete_test` computes (main.py lines 904-1035). -/
structure GradeResult where
  correct_answers : Nat
  total_points : Nat
  points_earned : Nat
  percentage : ℚ
  passed : Bool
  category_performance : List (String × BucketPerf)
  difficulty_performance : List (String × BucketPerf)
  detailed_answers : List GradedAnswer
deriving Repr

/-- The grading computation of `complete_test` (main.py lines 904-1035) as a
pure function.  `correct_answers` and `points_earned` model the
`SELECT SUM(is_correct), SUM(points_earned) FROM user_answers` read back
after the loop has written one grading record per question; the write half
(`update_answer_details`) is absent from `DatabaseManager`, so the rows are
modelled from the spec (one Answer record per (session, question), graded at
completion), making the sums range over the loop's own records.
`percentage` is `points_earned / total_points * 100` guarded by
`total_points > 0`, and `passed` compares it with
`test_data.get('passing_grade', 70)`. -/
def gradeTest (questions : List DynQuestion) (answers : String → Option SubmittedAnswer)
    (passing_grade : Option ℚ) : GradeResult :=
  let acc := questions.foldl (gradeStep answers)
    { total_points := 0, category_stats := [], difficulty_stats := [], details := [] }
  let correct_count : Nat := acc.details.countP (fun d => d.is_correct)
  let points_earned : Nat := (acc.details.map (fun d => d.points_earned)).sum
  let percentage : ℚ := scorePercentage points_earned acc.total_points
  { correct_answers := correct_count
    total_points := acc.total_points
    points_earned := points_earned
    percentage := percentage
    passed := decide (passing_grade.getD 70 ≤ percentage)
    category_performance := acc.category_stats.map (fun e => (e.1, bucketPerf e.2))
    difficulty_performance := acc.difficulty_stats.map (fun e => (e.1, bucketPerf e.2))
    detailed_answers := acc.details }

/-- One row of the `test_stats` table, in column order
`(test_id, test_title, times_taken, average_score, best_score, worst_score,
total_questions, ...)`; scores are modelled as rationals. -/
structure TestStats where
  test_title : String
  times_taken : Nat
  average_score : ℚ
  best_score : ℚ
  worst_score : ℚ
  total_questions : Nat
deriving Repr

/-- `DatabaseManager.update_test_stats` (database.py lines 561-590): with an
existing row, increment `times_taken`, fold the score into the running mean
`(old_avg * (times_taken - 1) + score) / times_taken`, take max for
`best_score` and min for `worst_score`; with no row, insert one with
`times_taken = 1` and all three scores equal to the score. -/
def update_test_stats (stats : String → Option TestStats) (test_id test_title : String)
    (score : ℚ) (total_questions : Nat) : String → Option TestStats :=
  fun k =>
    if k = test_id then
      match stats test_id with
      | some cur =>
          let times_taken := cur.times_taken + 1
          let new_avg :=
            (cur.average_score * ((times_taken : ℚ) - 1) + score) / (times_taken : ℚ)
          some { cur with
                  times_taken := times_taken
                  average_score := new_avg
                  best_score := max cur.best_score score
                  worst_score := min cur.worst_score score }
      | none =>
          some { test_title := test_title
                 times_taken := 1
                 average_score := score
                 best_score := score
                 worst_score := score
                 total_questions := total_questions }
    else stats k

/-- A database call a handler makes on the `DatabaseManager` instance: the
method name, tagged by whether the call writes persistent state. -/
inductive DbCall where
  | read : String → DbCall
  | write : String → DbCall
deriving DecidableEq, Repr

/-- The method name of a call. -/
def DbCall.method : DbCall → String
  | read m => m
  | write m => m

/-- The methods the `DatabaseManager` class defines (database.py lines
16-633). -/
def databaseManagerMethods : List String :=
  ["init_database", "_create_tables", "get_connection", "create_session",
   "get_session", "update_session_progress", "complete_session",
   "load_question_bank", "get_questions_by_criteria", "get_failed_questions",
   "update_question_usage", "save_dynamic_test", "get_available_categories",
   "get_question_stats", "save_answer", "get_session_answers",
   "update_test_stats", "get_general_stats", "health_check"]

/-- Execute a handler's database-call sequence: accessing an attribute the
`DatabaseManager` class does not define raises `AttributeError` at the call
site, aborting the handler; the result is the list of calls that actually
executed before the abort and whether an exception was raised. -/
def runHandler : List DbCall → List DbCall × Bool
  | [] => ([], false)
  | c :: rest =>
      if databaseManagerMethods.contains c.method then
        let r := runHandler rest
        (c :: r.1, r.2)
      else ([], true)

/-- The database calls `submit_answer` (main.py lines 848-880) makes, in
program order, on the path where the session exists: read the session,
write the answer into `session_progress`, then call the (undefined)
`save_user_answer_basic`. -/
def submit_answer_db_calls : List DbCall :=
  [DbCall.read "get_session", DbCall.write "update_session_progress",
   DbCall.write "save_user_answer_basic"]

/-- The database calls `complete_test` (main.py lines 883-1035) makes, in
program order, on the path where the session exists, for a test of `n`
questions: read the session, call the (undefined) `get_dynamic_test`, write
one `update_answer_details` per question, read the score sums through
`get_connection`, write the completed session, and write the test stats. -/
def complete_test_db_calls (n : Nat) : List DbCall :=
  DbCall.read "get_session" :: DbCall.read "get_dynamic_test" ::
    (List.replicate n (DbCall.write "update_answer_details") ++
      [DbCall.read "get_connection", DbCall.write "complete_session",
       DbCall.write "update_test_stats"])

/-- A `test_sessions` row joined with its `session_progress` row, with the
fields `complete_test` reads and `complete_session` writes. -/
structure SessionRow where
  test_id : String
  started_at : Nat
  status : String
  answers_data : String → Option SubmittedAnswer
  completed_at : Option Nat
  correct_answers : Nat
  total_points : Nat
  points_earned : Nat
  score_percentage : ℚ
  duration_seconds : Int

/-- Modelled from the spec: the record `get_dynamic_test` returns — the
method is invoked by `complete_test` but defined nowhere in
`DatabaseManager`; per the spec a generated test is a named snapshot of a
question sequence, and `complete_test` reads its `questions`, `test_id`,
`title` and optional `passing_grade` keys. -/
structure DynTest where
  test_id : String
  title : String
  questions : List DynQuestion
  passing_grade : Option ℚ

/-- The persistent state the modelled `complete_test` handler touches. -/
structure AppState where
  sessions : String → Option SessionRow
  dynamic_tests : String → Option DynTest
  usage : UsageTable
  test_stats : String → Option TestStats

/-- The error raised by a handler. -/
inductive HttpError where
  | notFound : String → HttpError
deriving DecidableEq, Repr

/-- The `complete_test` handler (main.py lines 883-1035) on the dynamic-test
path, as a state transformer.  Modelled from the spec where the code calls
methods absent from `DatabaseManager` (`get_dynamic_test` fetches the
generated-test snapshot; the per-answer `update_answer_details` writes are
folded into `gradeTest` as documented there).  Faithful to the source, the
handler checks only that the session and test exist — it never inspects the
session's `status` — then grades, marks the session completed
(`complete_session`), and rolls the score into the per-test statistics
(`update_test_stats`).  It never touches the `question_usage` table. -/
def complete_test (st : AppState) (session_id : String) (now : Nat) :
    Except HttpError (AppState × GradeResult) :=
  match st.sessions session_id with
  | none => Except.error (HttpError.notFound "Session not found")
  | some s =>
      match st.dynamic_tests s.test_id with
      | none => Except.error (HttpError.notFound "Test not found")
      | some t =>
          let r := gradeTest t.questions s.answers_data t.passing_grade
          let s' := { s with
                      completed_at := some now
                      correct_answers := r.correct_answers
                      total_points := r.total_points
                      points_earned := r.points_earned
                      score_percentage := r.percentage
                      duration_seconds := (now : Int) - (s.started_at : Int)
                      status := "completed" }
          let sessions' := fun k => if k = session_id then some s' else st.sessions k
          let stats' :=
            update_test_stats st.test_stats t.test_id t.title r.percentage t.questions.length
          Except.ok ({ st with sessions := sessions', test_stats := stats' }, r)

/-- The state after a handler ran: the new state on success, the old state
when the handler raised (the handler performed its writes only on the
success path). -/
def resultState (st : AppState) (e : Except HttpError (AppState × GradeResult)) : AppState :=
  match e with
  | Except.ok p => p.1
  | Except.error _ => st

/-- The `total` field of a named performance bucket (0 when the bucket is
absent). -/
def perfTotal (l : List (String × BucketPerf)) (key : String) : Nat :=
  ((l.find? (fun e => e.1 == key)).map (fun e => e.2.total)).getD 0

/-- Sample question "C" (concrete instances of the theorems below). -/
def qC : Question :=
  { question_id := "C"
    bank_id := "b1"
    question_text := "qc"
    options := ["o0", "o1", "o2", "o3"]
    correct_answer := 0
    explanation := ""
    difficulty := "easy"
    category := "cat1"
    keywords_json := "[]"
    estimated_time_seconds := 90 }

/-- Sample question "D". -/
def qD : Question :=
  { question_id := "D"
    bank_id := "b1"
    question_text := "qd"
    options := ["o0", "o1", "o2", "o3"]
    correct_answer := 1
    explanation := ""
    difficulty := "medium"
    category := "cat2"
    keywords_json := "[]"
    estimated_time_seconds := 90 }

/-- Sample usage table for identity "Y": question "C" answered incorrectly
twice, question "D" seen once and never failed. -/
def usageY : UsageTable := fun k =>
  if k = ("C", "Y") then
    some { times_used := 2, last_used := 5, correct_count := 0, incorrect_count := 2 }
  else if k = ("D", "Y") then
    some { times_used := 1, last_used := 3, correct_count := 1, incorrect_count := 0 }
  else none

/-- A constant tie-break (stands for one fixed draw of SQL `RANDOM()`). -/
def tie0 : Question → Nat := fun _ => 0

/-- Sample dynamic-test question "E" (worth the default 1 point). -/
def dqE : DynQuestion :=
  { question_id := "E"
    question := "qe"
    options := ["a", "b", "c", "d"]
    correct_answer := 1
    points := none
    category := "cat1"
    difficulty := "easy" }

/-- Sample dynamic test "T" containing only `dqE`. -/
def testT : DynTest :=
  { test_id := "T"
    title := "t"
    questions := [dqE]
    passing_grade := none }

/-- Sample active session "S" over test "T", with question "E" answered
correctly. -/
def sessionS : SessionRow :=
  { test_id := "T"
    started_at := 0
    status := "active"
    answers_data := fun qid =>
      if qid = "E" then some { selected_answer := 1, time_spent_seconds := 3 } else none
    completed_at := none
    correct_answers := 0
    total_points := 0
    points_earned := 0
    score_percentage := 0
    duration_seconds := 0 }

/-- Sample application state holding session "S" and test "T", with empty
usage and statistics tables. -/
def st0 : AppState :=
  { sessions := fun k => if k = "S" then some sessionS else none
    dynamic_tests := fun k => if k = "T" then some testT else none
    usage := fun _ => none
    test_stats := fun _ => none }

/-- The state after finalizing session "S" once. -/
def st1 : AppState := resultState st0 (complete_test st0 "S" 10)

/-- Sample `test_stats` table: test "T" taken once with score 80. -/
def stats1 : String → Option TestStats := fun k =>
  if k = "T" then
    some { test_title := "t"
           times_taken := 1
           average_score := 80
           best_score := 80
           worst_score := 80
           total_questions := 1 }
  else none

/-- Sample bank question "C" (contents matching `qC`). -/
def bqC : BankQuestion :=
  { id := "C"
    question := "qc"
    options := ["o0", "o1", "o2", "o3"]
    correct_answer := 0
    explanation := ""
    difficulty := "easy"
    category := "cat1"
    keywords_json := "[]"
    estimated_time_seconds := 90 }

/-- Sample bank document "b1" declaring one question. -/
def bank1 : BankData :=
  { bank_id := "b1"
    title := "B"
    questions := [bqC] }

/-- Sample bank database state: bank "b1" already loaded with one question
(`qC`), and a question "D" belonging to bank "b2". -/
def stB : BankDbState :=
  { bank_counts := fun k => if k = "b1" then some 1 else none
    questions := [qC, { qD with bank_id := "b2" }] }

/-- Sample criteria selecting category "cat1" only. -/
def crit1 : Criteria :=
  { difficulty := none
    categories := some ["cat1"]
    keywords := none
    exclude_question_ids := none }

/-! Theorems. -/

/-- **C10.** For every `(question, identity)` key, the three
`question_usage` counters are monotonically non-decreasing under
`update_question_usage` — the only operation of the core that mutates the
usage table — at the updated key and at every other key alike (a missing
row reads as all-zero counters). -/
theorem usage_counters_monotone (tbl : UsageTable) (question_id user_ip : String)
    (is_correct : Bool) (now : Nat) (k : String × String) :
    timesUsedOf (tbl k) ≤
        timesUsedOf (update_question_usage tbl question_id user_ip is_correct now k) ∧
      correctCountOf (tbl k) ≤
        correctCountOf (update_question_usage tbl question_id user_ip is_correct now k) ∧
      incorrectCountOf (tbl k) ≤
        incorrectCountOf (update_question_usage tbl question_id user_ip is_correct now k) := by
  unfold update_question_usage
  by_cases h : k = (question_id, user_ip)
  · subst h
    refine ⟨?_, ?_, ?_⟩ <;> simp [timesUsedOf, correctCountOf, incorrectCountOf]
  · simp [h]

/-- **C3 (counterexample).** On an existing session, `submit_answer` does
not raise before persisting: the executed call prefix already contains the
`update_session_progress` write (which persists the submitted answer into
`session_progress`) when the handler raises `AttributeError` at
`save_user_answer_basic`. -/
theorem submit_answer_writes_before_raising :
    (runHandler submit_answer_db_calls).2 = true ∧
      DbCall.write "update_session_progress" ∈ (runHandler submit_answer_db_calls).1 := by
  decide

/-- **C3 (amended).** On an existing session, `complete_test` raises
`AttributeError` at `get_dynamic_test` having executed only the
`get_session` read — before finalizing or persisting anything — while
`submit_answer` writes the answer into session progress and then raises
`AttributeError` at `save_user_answer_basic`; in particular
`complete_session` never executes, so no session can be completed through
these code paths. -/
theorem handlers_abort_on_missing_methods (n : Nat) :
    runHandler (complete_test_db_calls n) = ([DbCall.read "get_session"], true) ∧
      runHandler submit_answer_db_calls =
        ([DbCall.read "get_session", DbCall.write "update_session_progress"], true) :=
  ⟨rfl, by decide⟩

/-- **C9.** `update_test_stats` maintains the per-test rolling aggregate:
with an existing row, `times_taken` increments by 1, the average satisfies
both the source formula `(old_avg * (times_taken − 1) + score)/times_taken`
and the cleared-denominator identity, best is max and worst is min of old
value and score; with no prior row a fresh row is written with
`times_taken = 1` and average, best and worst all equal to the score; other
tests' rows are untouched. -/
theorem test_stats_rollup (stats : String → Option TestStats)
    (test_id test_title : String) (score : ℚ) (total_questions : Nat) :
    (∀ cur, stats test_id = some cur →
      ∃ upd,
        update_test_stats stats test_id test_title score total_questions test_id = some upd ∧
        upd.times_taken = cur.times_taken + 1 ∧
        upd.average_score =
          (cur.average_score * ((upd.times_taken : ℚ) - 1) + score) / (upd.times_taken : ℚ) ∧
        upd.average_score * (upd.times_taken : ℚ) =
          cur.average_score * (cur.times_taken : ℚ) + score ∧
        upd.best_score = max cur.best_score score ∧
        upd.worst_score = min cur.worst_score score) ∧
    (stats test_id = none →
      update_test_stats stats test_id test_title score total_questions test_id =
        some { test_title := test_title
               times_taken := 1
               average_score := score
               best_score := score
               worst_score := score
               total_questions := total_questions }) ∧
    (∀ k, k ≠ test_id →
      update_test_stats stats test_id test_title score total_questions k = stats k) := by
  refine ⟨?_, ?_, ?_⟩
  · intro cur hcur
    have h : update_test_stats stats test_id test_title score total_questions test_id =
        some { cur with
               times_taken := cur.times_taken + 1
               average_score :=
                 (cur.average_score * (((cur.times_taken + 1 : Nat) : ℚ) - 1) + score) /
                   ((cur.times_taken + 1 : Nat) : ℚ)
               best_score := max cur.best_score score
               worst_score := min cur.worst_score score } := by
      unfold update_test_stats
      rw [if_pos rfl, hcur]
    refine ⟨_, h, rfl, rfl, ?_, rfl, rfl⟩
    have hn : ((cur.times_taken : ℚ) + 1) ≠ 0 := by positivity
    show (cur.average_score * (((cur.times_taken + 1 : Nat) : ℚ) - 1) + score) /
        ((cur.times_taken + 1 : Nat) : ℚ) * ((cur.times_taken + 1 : Nat) : ℚ) =
      cur.average_score * (cur.times_taken : ℚ) + score
    push_cast
    field_simp
  · intro hnone
    simp [update_test_stats, hnone]
  · intro k hk
    simp [update_test_stats, hk]

/-- Concrete instance of `test_stats_rollup`: folding score 90 into the
stats of test "T" (taken once) yields 2 takes, best `max 80 90`, worst
`min 80 90`; a different test id is left untouched. -/
theorem test_stats_rollup_witness :
    (∃ upd, update_test_stats stats1 "T" "t" 90 1 "T" = some upd ∧
        upd.times_taken = 2 ∧ upd.best_score = max 80 90 ∧ upd.worst_score = min 80 90) ∧
      update_test_stats stats1 "T" "t" 90 1 "X" = stats1 "X" := by
  refine ⟨?_, (test_stats_rollup stats1 "T" "t" 90 1).2.2 "X" (by decide)⟩
  obtain ⟨upd, h, ht, _, _, hb, hw⟩ := (test_stats_rollup stats1 "T" "t" 90 1).1 _ rfl
  exact ⟨upd, h, by rw [ht], hb, hw⟩

/-- **C1 (code evaluation).** Session completion never upserts question
usage: the `complete_test` handler's database-call sequence contains no
`update_question_usage` call at all (it aborts at `get_dynamic_test`
besides), and the modelled handler leaves the `question_usage` table
unchanged on every input — future Selector calls do not reflect the
attempt. -/
theorem complete_test_never_updates_usage :
    (∀ n : Nat,
      (complete_test_db_calls n).countP
        (fun c => c.method == "update_question_usage") = 0) ∧
    (∀ st session_id now,
      (resultState st (complete_test st session_id now)).usage = st.usage) := by
  constructor
  · intro n
    rw [List.countP_eq_zero]
    intro c hc
    simp only [complete_test_db_calls, List.mem_cons, List.mem_append,
      List.mem_replicate] at hc
    rcases hc with h | h | ⟨-, h⟩ | h
    · simp_all [DbCall.method]
    · simp_all [DbCall.method]
    · simp_all [DbCall.method]
    · rcases h with h | h | h <;> simp_all [DbCall.method]
  · intro st session_id now
    rcases h1 : st.sessions session_id with - | s
    · simp [complete_test, resultState, h1]
    · rcases h2 : st.dynamic_tests s.test_id with - | t
      · simp [complete_test, resultState, h1, h2]
      · simp [complete_test, resultState, h1, h2]

/-- **C2 (failing input).** Finalizing session "S" twice: the first call
succeeds and sets the session's status to `completed` with
`times_taken = 1` for its test — but the second call is *not* rejected as
already completed: it succeeds again, re-scores, and increments the test's
`times_taken` a second time. -/
theorem double_finalize_not_rejected :
    (st1.sessions "S").map (fun s => s.status) = some "completed" ∧
      (st1.test_stats "T").map (fun s => s.times_taken) = some 1 ∧
      (complete_test st1 "S" 20).isOk = true ∧
      ((resultState st1 (complete_test st1 "S" 20)).test_stats "T").map
        (fun s => s.times_taken) = some 2 :=
  ⟨rfl, rfl, rfl, rfl⟩

/-- **C4.** `get_questions_by_criteria` returns at most `limit` questions;
every returned question satisfies every supplied filter; question
identifiers are not duplicated (given the table's UNIQUE constraint on the
pool); `limit = 0` returns the empty sequence; an empty or absent category
filter — and the "mixed" or absent difficulty filter — match everything;
and when fewer matching questions exist than `limit`, all matches are
returned (as a permutation of the filtered pool) rather than an error. -/
theorem select_by_criteria_spec (pool : List Question) (tbl : UsageTable)
    (criteria : Criteria) (user_ip : Option String) (tie : Question → Nat) (limit : Nat) :
    (get_questions_by_criteria pool tbl criteria user_ip tie limit).length ≤ limit ∧
      (∀ q ∈ get_questions_by_criteria pool tbl criteria user_ip tie limit,
        matchesCriteria criteria q = true) ∧
      ((pool.map (fun q => q.question_id)).Nodup →
        ((get_questions_by_criteria pool tbl criteria user_ip tie limit).map
          (fun q => q.question_id)).Nodup) ∧
      get_questions_by_criteria pool tbl criteria user_ip tie 0 = [] ∧
      get_questions_by_criteria pool tbl { criteria with categories := some [] }
          user_ip tie limit =
        get_questions_by_criteria pool tbl { criteria with categories := none }
          user_ip tie limit ∧
      get_questions_by_criteria pool tbl { criteria with difficulty := some "mixed" }
          user_ip tie limit =
        get_questions_by_criteria pool tbl { criteria with difficulty := none }
          user_ip tie limit ∧
      ((pool.filter (matchesCriteria criteria)).length ≤ limit →
        List.Perm (get_questions_by_criteria pool tbl criteria user_ip tie limit)
          (pool.filter (matchesCriteria criteria))) := by
  refine ⟨List.length_take_le _ _, ?_, ?_, rfl, rfl, rfl, ?_⟩
  · intro q hq
    have hmem : q ∈ pool.filter (matchesCriteria criteria) :=
      (List.perm_insertionSort _ _).mem_iff.mp ((List.take_sublist _ _).subset hq)
    exact (List.mem_filter.mp hmem).2
  · intro hnd
    have hfil : List.Sublist
        ((pool.filter (matchesCriteria criteria)).map (fun q => q.question_id))
        (pool.map (fun q => q.question_id)) := (List.filter_sublist _).map _
    have hsorted : ((List.insertionSort (selectionLE tbl (effectiveIp user_ip) tie)
        (pool.filter (matchesCriteria criteria))).map (fun q => q.question_id)).Nodup :=
      (((List.perm_insertionSort _ _).map _).nodup_iff).mpr (hnd.sublist hfil)
    exact hsorted.sublist ((List.take_sublist _ _).map _)
  · intro hlen
    have hlen2 : (List.insertionSort (selectionLE tbl (effectiveIp user_ip) tie)
        (pool.filter (matchesCriteria criteria))).length ≤ limit := by
      rw [(List.perm_insertionSort _ _).length_eq]
      exact hlen
    rw [get_questions_by_criteria, List.take_of_length_le hlen2]
    exact List.perm_insertionSort _ _

/-- Concrete instance of `select_by_criteria_spec`: pool `[qC, qD]`,
category filter "cat1", identity "Y", limit 5. -/
theorem select_by_criteria_witness :
    (get_questions_by_criteria [qC, qD] usageY crit1 (some "Y") tie0 5).length ≤ 5 ∧
      ((get_questions_by_criteria [qC, qD] usageY crit1 (some "Y") tie0 5).map
        (fun q => q.question_id)).Nodup ∧
      List.Perm (get_questions_by_criteria [qC, qD] usageY crit1 (some "Y") tie0 5)
        ([qC, qD].filter (matchesCriteria crit1)) :=
  ⟨(select_by_criteria_spec [qC, qD] usageY crit1 (some "Y") tie0 5).1,
    (select_by_criteria_spec [qC, qD] usageY crit1 (some "Y") tie0 5).2.2.1 (by decide),
    (select_by_criteria_spec [qC, qD] usageY crit1 (some "Y") tie0 5).2.2.2.2.2.2 (by decide)⟩

/-- **C5.** `get_failed_questions` returns only questions whose usage row
for the identity has `incorrect_count > 0`, ordered by
`(incorrect_count DESC, last_used ASC, tie-break)`, truncated to `limit`;
concretely, identity "Y" with `incorrect_count = 2` on question "C" and
`incorrect_count = 0` on question "D" gets `[qC]` only. -/
theorem select_failed_spec (pool : List Question) (tbl : UsageTable) (user_ip : String)
    (tie : Question → Nat) (limit : Nat) :
    (∀ q ∈ get_failed_questions pool tbl user_ip tie limit,
        0 < incorrectCountOf (tbl (q.question_id, user_ip))) ∧
      (get_failed_questions pool tbl user_ip tie limit).length ≤ limit ∧
      List.Sorted (failedLE tbl user_ip tie)
        (get_failed_questions pool tbl user_ip tie limit) ∧
      get_failed_questions [qC, qD] usageY "Y" tie0 10 = [qC] := by
  refine ⟨?_, List.length_take_le _ _, ?_, by decide⟩
  · intro q hq
    have hmem := (List.mem_filter.mp ((List.perm_insertionSort _ _).mem_iff.mp
      ((List.take_sublist _ _).subset hq))).2
    simpa using hmem
  · exact List.Pairwise.sublist (List.take_sublist _ _) (List.sorted_insertionSort _ _)

/-- Concrete instance of `select_failed_spec`: question "C" is returned for
identity "Y", and its usage row indeed has a positive incorrect count. -/
theorem select_failed_witness : 0 < incorrectCountOf (usageY ("C", "Y")) :=
  (select_failed_spec [qC, qD] usageY "Y" tie0 10).1 qC (by decide)

/-- `find?` commutes with `map` when the mapped predicate agrees with the
original one. -/
theorem find?_map_rel (α β : Type) (f : α → β) (p : α → Bool) (p2 : β → Bool)
    (hf : ∀ e, p2 (f e) = p e) (l : List α) :
    (l.map f).find? p2 = (l.find? p).map f := by
  induction l with
  | nil => rfl
  | cons e es ih =>
    by_cases h : p e = true
    · rw [List.map_cons, List.find?_cons_of_pos _ (by rw [hf]; exact h),
        List.find?_cons_of_pos _ h]
      rfl
    · rw [List.map_cons, List.find?_cons_of_neg _ (by rw [hf]; exact h),
        List.find?_cons_of_neg _ h, ih]

/-- `bumpStats` increments exactly the `total` of the bumped key. -/
theorem lookupStat_bump_total (s : List (String × Nat × Nat)) (k : String) (b : Bool)
    (k' : String) :
    (lookupStat (bumpStats s k b) k').2 =
      (lookupStat s k').2 + (if k' = k then 1 else 0) := by
  set upd : (String × Nat × Nat) → (String × Nat × Nat) :=
    fun e => if e.1 = k then (e.1, e.2.1 + (if b then 1 else 0), e.2.2 + 1) else e with hupd
  have hkey : ∀ e, ((upd e).1 == k') = (e.1 == k') := by
    intro e
    rw [hupd]
    by_cases h : e.1 = k <;> simp [h]
  have hbump : bumpStats s k b =
      (if (s.any fun e => e.1 == k) = true then s else s ++ [(k, 0, 0)]).map upd := rfl
  have hlook : ∀ l : List (String × Nat × Nat),
      lookupStat (l.map upd) k' =
        (((l.find? (fun e => e.1 == k')).map upd).map (fun e => e.2)).getD (0, 0) := by
    intro l
    rw [lookupStat, find?_map_rel _ _ upd (fun e => e.1 == k') (fun e => e.1 == k') hkey]
  rw [hbump]
  by_cases hany : (s.any fun e => e.1 == k) = true
  · rw [if_pos hany, hlook]
    rcases hfind : s.find? (fun e => e.1 == k') with - | e
    · have hk : ¬ k' = k := by
        intro h
        subst h
        rcases List.any_eq_true.mp hany with ⟨x, hx, hpx⟩
        exact List.find?_eq_none.mp hfind x hx hpx
      simp [lookupStat, hfind, hk]
    · have he : e.1 = k' := by
        have h2 := List.find?_some hfind
        simpa using h2
      by_cases hk : k' = k
      · subst hk
        simp [lookupStat, hfind, hupd, he]
      · simp [lookupStat, hfind, hupd, he, hk]
  · rw [if_neg hany]
    have hnone : s.find? (fun e => e.1 == k) = none := by
      rw [List.find?_eq_none]
      intro x hx hpx
      exact hany (List.any_eq_true.mpr ⟨x, hx, hpx⟩)
    rw [List.map_append, lookupStat, List.find?_append,
      find?_map_rel _ _ upd (fun e => e.1 == k') (fun e => e.1 == k') hkey]
    by_cases hk : k' = k
    · subst hk
      rw [hnone]
      simp [lookupStat, hnone, hupd]
    · have hsingle : (([((k : String), (0 : Nat), (0 : Nat))].map upd).find?
          (fun e => e.1 == k')) = none := by
        simp [hupd, Ne.symm hk]
      rw [hsingle]
      rcases hfind : s.find? (fun e => e.1 == k') with - | e
      · simp [lookupStat, hfind, hk]
      · have he : e.1 = k' := by
          have h2 := List.find?_some hfind
          simpa using h2
        simp [lookupStat, hfind, hupd, he, hk]

/-- The grading loop appends exactly one grading record per question. -/
theorem gradeLoop_details (answers : String → Option SubmittedAnswer)
    (qs : List DynQuestion) : ∀ acc : GradeLoopAcc,
    (qs.foldl (gradeStep answers) acc).details =
      acc.details ++ qs.map (gradeDetail answers) := by
  induction qs with
  | nil =>
    intro acc
    simp
  | cons q qs ih =>
    intro acc
    rw [List.foldl_cons, ih, List.map_cons]
    simp [gradeStep]

/-- Across the grading loop, the `total` of a category bucket counts every
question of that category, answered or not. -/
theorem gradeLoop_cat_total (answers : String → Option SubmittedAnswer)
    (qs : List DynQuestion) (c : String) : ∀ acc : GradeLoopAcc,
    (lookupStat ((qs.foldl (gradeStep answers) acc).category_stats) c).2 =
      (lookupStat acc.category_stats c).2 + qs.countP (fun p => p.category == c) := by
  induction qs with
  | nil =>
    intro acc
    simp
  | cons q qs ih =>
    intro acc
    rw [List.foldl_cons, ih, List.countP_cons]
    have hstep : (gradeStep answers acc q).category_stats =
        bumpStats acc.category_stats q.category
          (answerIsCorrect ((answers q.question_id).map (fun a => a.selected_answer))
            q.correct_answer) := rfl
    rw [hstep, lookupStat_bump_total]
    by_cases h : c = q.category
    · simp [h]
      omega
    · have hf : (q.category == c) = false := by
        simpa using fun hcc => h (Eq.symm hcc)
      simp [h, hf]

/-- Same as `gradeLoop_cat_total` for the difficulty tally. -/
theorem gradeLoop_diff_total (answers : String → Option SubmittedAnswer)
    (qs : List DynQuestion) (c : String) : ∀ acc : GradeLoopAcc,
    (lookupStat ((qs.foldl (gradeStep answers) acc).difficulty_stats) c).2 =
      (lookupStat acc.difficulty_stats c).2 + qs.countP (fun p => p.difficulty == c) := by
  induction qs with
  | nil =>
    intro acc
    simp
  | cons q qs ih =>
    intro acc
    rw [List.foldl_cons, ih, List.countP_cons]
    have hstep : (gradeStep answers acc q).difficulty_stats =
        bumpStats acc.difficulty_stats q.difficulty
          (answerIsCorrect ((answers q.question_id).map (fun a => a.selected_answer))
            q.correct_answer) := rfl
    rw [hstep, lookupStat_bump_total]
    by_cases h : c = q.difficulty
    · simp [h]
      omega
    · have hf : (q.difficulty == c) = false := by
        simpa using fun hcc => h (Eq.symm hcc)
      simp [h, hf]

/-- `perfTotal` over the performance list reads the raw tally's total. -/
theorem perfTotal_map (stats : List (String × Nat × Nat)) (k : String) :
    perfTotal (stats.map (fun e => (e.1, bucketPerf e.2))) k = (lookupStat stats k).2 := by
  have h := find?_map_rel (String × Nat × Nat) (String × BucketPerf)
    (fun e => (e.1, bucketPerf e.2)) (fun e => e.1 == k) (fun e => e.1 == k)
    (fun e => rfl) stats
  rw [perfTotal, h, lookupStat]
  rcases hfind : stats.find? (fun e => e.1 == k) with - | e <;> simp [hfind, bucketPerf]

/-- The zero-guard and cleared-denominator form of `scorePercentage`. -/
theorem scorePercentage_spec (points_earned total_points : Nat) :
    (total_points = 0 → scorePercentage points_earned total_points = 0) ∧
      (0 < total_points →
        scorePercentage points_earned total_points * (total_points : ℚ) =
          (points_earned : ℚ) * 100) := by
  constructor
  · intro h
    subst h
    rfl
  · intro h
    unfold scorePercentage
    rw [if_pos h]
    have hne : (total_points : ℚ) ≠ 0 := by positivity
    field_simp

/-- The zero-guard and cleared-denominator form of a bucket percentage. -/
theorem bucketPerf_spec (s : Nat × Nat) :
    ((bucketPerf s).total = 0 → (bucketPerf s).percentage = 0) ∧
      (0 < (bucketPerf s).total →
        (bucketPerf s).percentage * ((bucketPerf s).total : ℚ) =
          ((bucketPerf s).correct : ℚ) * 100) := by
  constructor
  · intro h
    simp only [bucketPerf] at h ⊢
    rw [if_neg]
    omega
  · intro h
    simp only [bucketPerf] at h ⊢
    rw [if_pos h]
    have hne : (s.2 : ℚ) ≠ 0 := by positivity
    field_simp

/-- **C7.** Grading never divides by zero: the overall percentage is 0 when
`total_points = 0`, and otherwise satisfies
`percentage * total_points = points_earned * 100` (the cleared-denominator
form of `points_earned / total_points * 100`); pass/fail is exactly
`percentage ≥ passing_grade` with `passing_grade` defaulting to 70; and
every per-category and per-difficulty bucket satisfies the same guarded
`correct / attempted * 100` formula, with 0 when `attempted = 0`. -/
theorem grading_formulas (questions : List DynQuestion)
    (answers : String → Option SubmittedAnswer) (passing_grade : Option ℚ) :
    ((gradeTest questions answers passing_grade).total_points = 0 →
        (gradeTest questions answers passing_grade).percentage = 0) ∧
      (0 < (gradeTest questions answers passing_grade).total_points →
        (gradeTest questions answers passing_grade).percentage *
            ((gradeTest questions answers passing_grade).total_points : ℚ) =
          ((gradeTest questions answers passing_grade).points_earned : ℚ) * 100) ∧
      ((gradeTest questions answers passing_grade).passed = true ↔
        passing_grade.getD 70 ≤ (gradeTest questions answers passing_grade).percentage) ∧
      (∀ e ∈ (gradeTest questions answers passing_grade).category_performance,
        (e.2.total = 0 → e.2.percentage = 0) ∧
          (0 < e.2.total →
            e.2.percentage * (e.2.total : ℚ) = (e.2.correct : ℚ) * 100)) ∧
      (∀ e ∈ (gradeTest questions answers passing_grade).difficulty_performance,
        (e.2.total = 0 → e.2.percentage = 0) ∧
          (0 < e.2.total →
            e.2.percentage * (e.2.total : ℚ) = (e.2.correct : ℚ) * 100)) := by
  refine ⟨?_, ?_, ?_, ?_, ?_⟩
  · intro h
    exact (scorePercentage_spec _ _).1 h
  · intro h
    exact (scorePercentage_spec _ _).2 h
  · exact decide_eq_true_iff
  · intro e he
    simp only [gradeTest] at he
    obtain ⟨s, -, rfl⟩ := List.mem_map.mp he
    exact bucketPerf_spec s.2
  · intro e he
    simp only [gradeTest] at he
    obtain ⟨s, -, rfl⟩ := List.mem_map.mp he
    exact bucketPerf_spec s.2

/-- Concrete instance of `grading_formulas`: one unanswered 1-point
question, so `total_points = 1 > 0` and the cleared-denominator percentage
identity holds. -/
theorem grading_formulas_witness :
    (gradeTest [dqE] (fun _ => none) none).percentage *
        ((gradeTest [dqE] (fun _ => none) none).total_points : ℚ) =
      ((gradeTest [dqE] (fun _ => none) none).points_earned : ℚ) * 100 :=
  (grading_formulas [dqE] (fun _ => none) none).2.1 (by decide)

/-- **C8.** A question with no matching submitted answer is graded as
unanswered: its grading record is marked incorrect with zero points earned
(for every record carrying its identifier), it is never correct for any
`correct_answer` value — including -1 — because `None` matches no option
index, and it is still counted in its category and difficulty `attempted`
denominators (the bucket totals count every question of the bucket, and the
count is positive). -/
theorem unanswered_question_grading (questions : List DynQuestion)
    (answers : String → Option SubmittedAnswer) (passing_grade : Option ℚ)
    (q : DynQuestion) (hq : q ∈ questions) (hm : answers q.question_id = none) :
    (∀ d ∈ (gradeTest questions answers passing_grade).detailed_answers,
        d.question_id = q.question_id → d.is_correct = false ∧ d.points_earned = 0) ∧
      gradeDetail answers q ∈ (gradeTest questions answers passing_grade).detailed_answers ∧
      perfTotal (gradeTest questions answers passing_grade).category_performance
          q.category = questions.countP (fun p => p.category == q.category) ∧
      perfTotal (gradeTest questions answers passing_grade).difficulty_performance
          q.difficulty = questions.countP (fun p => p.difficulty == q.difficulty) ∧
      0 < questions.countP (fun p => p.category == q.category) ∧
      (∀ c : Int, answerIsCorrect none c = false) := by
  have hdet : (gradeTest questions answers passing_grade).detailed_answers =
      questions.map (gradeDetail answers) := by
    simp only [gradeTest]
    rw [gradeLoop_details]
    simp
  refine ⟨?_, ?_, ?_, ?_, ?_, fun c => rfl⟩
  · intro d hd hid
    rw [hdet] at hd
    obtain ⟨p, hp, rfl⟩ := List.mem_map.mp hd
    have hpid : p.question_id = q.question_id := hid
    have hpnone : answers p.question_id = none := by rw [hpid]; exact hm
    constructor
    · show answerIsCorrect ((answers p.question_id).map (fun a => a.selected_answer))
        p.correct_answer = false
      rw [hpnone]
      rfl
    · show (if answerIsCorrect ((answers p.question_id).map (fun a => a.selected_answer))
          p.correct_answer then qPoints p else 0) = 0
      rw [hpnone]
      rfl
  · rw [hdet]
    exact List.mem_map_of_mem _ hq
  · show perfTotal (((questions.foldl (gradeStep answers)
        { total_points := 0, category_stats := [], difficulty_stats := [],
          details := [] }).category_stats).map (fun e => (e.1, bucketPerf e.2)))
        q.category = _
    rw [perfTotal_map, gradeLoop_cat_total]
    simp [lookupStat]
  · show perfTotal (((questions.foldl (gradeStep answers)
        { total_points := 0, category_stats := [], difficulty_stats := [],
          details := [] }).difficulty_stats).map (fun e => (e.1, bucketPerf e.2)))
        q.difficulty = _
    rw [perfTotal_map, gradeLoop_diff_total]
    simp [lookupStat]
  · exact List.countP_pos_iff.mpr ⟨q, hq, by simp⟩

/-- Concrete instance of `unanswered_question_grading`: the single question
"E" with no submitted answers is graded incorrect with zero points and
still counted in its category denominator. -/
theorem unanswered_question_grading_witness :
    gradeDetail (fun _ => none) dqE ∈
        (gradeTest [dqE] (fun _ => none) none).detailed_answers ∧
      0 < [dqE].countP (fun p => p.category == dqE.category) ∧
      (∀ c : Int, answerIsCorrect none c = false) := by
  have h := unanswered_question_grading [dqE] (fun _ => none) none dqE
    (List.mem_singleton.mpr rfl) rfl
  exact ⟨h.2.1, h.2.2.2.2.1, h.2.2.2.2.2⟩

/-- `upsertBankQuestion` keeps the identifier list unchanged when the
identifier already exists, and appends it otherwise. -/
theorem upsert_map_id (bank_id : String) (q : BankQuestion) (qs : List Question) :
    (upsertBankQuestion bank_id q qs).map (fun r => r.question_id) =
      if (qs.any fun r => r.question_id == q.id) = true then
        qs.map (fun r => r.question_id)
      else qs.map (fun r => r.question_id) ++ [q.id] := by
  unfold upsertBankQuestion
  by_cases h : (qs.any fun r => r.question_id == q.id) = true
  · rw [if_pos h, if_pos h, List.map_map]
    apply List.map_congr_left
    intro r hr
    by_cases hid : r.question_id = q.id
    · simp [hid, rowOfBankQuestion]
    · simp [hid]
  · rw [if_neg h, if_neg h, List.map_append]
    rfl

/-- Upserting preserves uniqueness of question identifiers. -/
theorem upsert_nodup (bank_id : String) (q : BankQuestion) (qs : List Question)
    (h : (qs.map (fun r => r.question_id)).Nodup) :
    ((upsertBankQuestion bank_id q qs).map (fun r => r.question_id)).Nodup := by
  rw [upsert_map_id]
  by_cases hany : (qs.any fun r => r.question_id == q.id) = true
  · rw [if_pos hany]
    exact h
  · rw [if_neg hany]
    have hnot : q.id ∉ qs.map (fun r => r.question_id) := by
      intro hmem
      rcases List.mem_map.mp hmem with ⟨r, hr, hrid⟩
      exact hany (List.any_eq_true.mpr ⟨r, hr, by simp [hrid]⟩)
    simp [List.nodup_append, h, hnot]

/-- After upserting `q`, some row carries `q.id` tagged with the bank. -/
theorem upsert_mem_self (bank_id : String) (q : BankQuestion) (qs : List Question) :
    ∃ r ∈ upsertBankQuestion bank_id q qs,
      r.question_id = q.id ∧ r.bank_id = bank_id := by
  unfold upsertBankQuestion
  by_cases hany : (qs.any fun r => r.question_id == q.id) = true
  · rw [if_pos hany]
    rcases List.any_eq_true.mp hany with ⟨r, hr, hpr⟩
    have hid : r.question_id = q.id := by simpa using hpr
    exact ⟨rowOfBankQuestion bank_id q,
      List.mem_map.mpr ⟨r, hr, by rw [if_pos hid]⟩, rfl, rfl⟩
  · rw [if_neg hany]
    exact ⟨rowOfBankQuestion bank_id q, by simp, rfl, rfl⟩

/-- Upserting preserves "some row with identifier `i` is tagged with the
bank". -/
theorem upsert_preserves_tagged (bank_id : String) (q : BankQuestion)
    (qs : List Question) (i : String)
    (h : ∃ r ∈ qs, r.question_id = i ∧ r.bank_id = bank_id) :
    ∃ r ∈ upsertBankQuestion bank_id q qs,
      r.question_id = i ∧ r.bank_id = bank_id := by
  rcases h with ⟨r, hr, hid, hbank⟩
  unfold upsertBankQuestion
  by_cases hany : (qs.any fun x => x.question_id == q.id) = true
  · rw [if_pos hany]
    by_cases hrq : r.question_id = q.id
    · exact ⟨rowOfBankQuestion bank_id q,
        List.mem_map.mpr ⟨r, hr, by rw [if_pos hrq]⟩, hrq.symm.trans hid, rfl⟩
    · exact ⟨r, List.mem_map.mpr ⟨r, hr, by rw [if_neg hrq]⟩, hid, hbank⟩
  · rw [if_neg hany]
    exact ⟨r, List.mem_append_left _ hr, hid, hbank⟩

/-- Upserting a question of the new set keeps the invariant that every row
tagged with the bank carries an identifier of the new set. -/
theorem upsert_tagged_subset (bank_id : String) (q : BankQuestion)
    (qs : List Question) (S : List String) (hq : q.id ∈ S)
    (h : ∀ r ∈ qs, r.bank_id = bank_id → r.question_id ∈ S) :
    ∀ r ∈ upsertBankQuestion bank_id q qs,
      r.bank_id = bank_id → r.question_id ∈ S := by
  intro r hr hb
  unfold upsertBankQuestion at hr
  by_cases hany : (qs.any fun x => x.question_id == q.id) = true
  · rw [if_pos hany] at hr
    rcases List.mem_map.mp hr with ⟨x, hx, rfl⟩
    by_cases hxq : x.question_id = q.id
    · simp only [if_pos hxq]
      exact hq
    · simp only [if_neg hxq] at hb ⊢
      exact h x hx hb
  · rw [if_neg hany] at hr
    rcases List.mem_append.mp hr with hx | hx
    · exact h r hx hb
    · have : r = rowOfBankQuestion bank_id q := by simpa using hx
      rw [this]
      exact hq

/-- The reload fold preserves uniqueness of question identifiers. -/
theorem fold_upsert_nodup (bank_id : String) (qs : List BankQuestion) :
    ∀ acc : List Question, (acc.map (fun r => r.question_id)).Nodup →
      ((qs.foldl (fun acc q => upsertBankQuestion bank_id q acc) acc).map
        (fun r => r.question_id)).Nodup := by
  induction qs with
  | nil =>
    intro acc h
    simpa using h
  | cons q qs ih =>
    intro acc h
    rw [List.foldl_cons]
    exact ih _ (upsert_nodup _ _ _ h)

/-- The reload fold preserves "some row with identifier `i` is tagged with
the bank". -/
theorem fold_preserves_tagged (bank_id : String) (qs : List BankQuestion) :
    ∀ (acc : List Question) (i : String),
      (∃ r ∈ acc, r.question_id = i ∧ r.bank_id = bank_id) →
      ∃ r ∈ qs.foldl (fun acc q => upsertBankQuestion bank_id q acc) acc,
        r.question_id = i ∧ r.bank_id = bank_id := by
  induction qs with
  | nil =>
    intro acc i h
    simpa using h
  | cons p qs ih =>
    intro acc i h
    rw [List.foldl_cons]
    exact ih _ i (upsert_preserves_tagged _ _ _ _ h)

/-- After the reload fold, every question of the document has a row tagged
with the bank. -/
theorem fold_upsert_mem (bank_id : String) (qs : List BankQuestion) :
    ∀ acc : List Question, ∀ q ∈ qs,
      ∃ r ∈ qs.foldl (fun acc q => upsertBankQuestion bank_id q acc) acc,
        r.question_id = q.id ∧ r.bank_id = bank_id := by
  induction qs with
  | nil =>
    intro acc q hq
    simp at hq
  | cons p qs ih =>
    intro acc q hq
    rw [List.foldl_cons]
    rcases List.mem_cons.mp hq with h | h
    · subst h
      exact fold_preserves_tagged bank_id qs _ _ (upsert_mem_self bank_id q acc)
    · exact ih _ q h

/-- After the reload fold, every row tagged with the bank carries an
identifier of the new set. -/
theorem fold_tagged_subset (bank_id : String) (qs : List BankQuestion)
    (S : List String) :
    ∀ acc : List Question, (∀ q ∈ qs, q.id ∈ S) →
      (∀ r ∈ acc, r.bank_id = bank_id → r.question_id ∈ S) →
      ∀ r ∈ qs.foldl (fun acc q => upsertBankQuestion bank_id q acc) acc,
        r.bank_id = bank_id → r.question_id ∈ S := by
  induction qs with
  | nil =>
    intro acc _ h
    simpa using h
  | cons p qs ih =>
    intro acc hsub hacc
    rw [List.foldl_cons]
    exact ih _ (fun q hq => hsub q (List.mem_cons_of_mem _ hq))
      (upsert_tagged_subset bank_id p acc S (hsub p (List.mem_cons_self _ _)) hacc)

/-- **C6.** Bank ingestion is idempotent on the declared question count:
when the stored count for the bank equals the document's count, loading is
a no-op reporting 0; otherwise the reload path runs and reports the number
of questions in the document, its result keeps question identifiers
globally unique (given they were unique before), every question of the new
set ends up in a row tagged with this bank (an identifier already present —
from any bank — is updated in place, not duplicated), and every surviving
row tagged with this bank carries an identifier of the new set (the bank's
old questions are deleted). -/
theorem bank_ingestion_spec (st : BankDbState) (bank : BankData) :
    (∀ n, st.bank_counts bank.bank_id = some n → n = bank.questions.length →
      load_question_bank st bank = (st, 0)) ∧
      (st.bank_counts bank.bank_id ≠ some bank.questions.length →
        load_question_bank st bank = loadBankQuestions st bank) ∧
      (loadBankQuestions st bank).2 = bank.questions.length ∧
      ((st.questions.map (fun r => r.question_id)).Nodup →
        (((loadBankQuestions st bank).1.questions).map
          (fun r => r.question_id)).Nodup) ∧
      (∀ q ∈ bank.questions, ∃ r ∈ (loadBankQuestions st bank).1.questions,
        r.question_id = q.id ∧ r.bank_id = bank.bank_id) ∧
      (∀ r ∈ (loadBankQuestions st bank).1.questions, r.bank_id = bank.bank_id →
        r.question_id ∈ bank.questions.map (fun q => q.id)) := by
  refine ⟨?_, ?_, rfl, ?_, ?_, ?_⟩
  · intro n hn hlen
    unfold load_question_bank
    rw [hn]
    show (if n = bank.questions.length then (st, 0) else loadBankQuestions st bank) = (st, 0)
    rw [if_pos hlen]
  · intro hne
    unfold load_question_bank
    rcases hc : st.bank_counts bank.bank_id with - | c
    · rfl
    · rw [hc] at hne
      have hcne : ¬ c = bank.questions.length := fun h => hne (by rw [h])
      show (if c = bank.questions.length then (st, 0) else loadBankQuestions st bank) =
        loadBankQuestions st bank
      rw [if_neg hcne]
  · intro h
    have hrem : ((st.questions.filter (fun r => r.bank_id != bank.bank_id)).map
        (fun r => r.question_id)).Nodup := h.sublist ((List.filter_sublist _).map _)
    exact fold_upsert_nodup _ _ _ hrem
  · intro q hq
    exact fold_upsert_mem _ _ _ q hq
  · intro r hr hb
    refine fold_tagged_subset bank.bank_id bank.questions
      (bank.questions.map (fun q => q.id))
      (st.questions.filter (fun r => r.bank_id != bank.bank_id))
      (fun q hq => List.mem_map_of_mem _ hq) ?_ r hr hb
    intro r2 hr2 hb2
    have hne2 := (List.mem_filter.mp hr2).2
    rw [hb2] at hne2
    simp at hne2

/-- Concrete instance of `bank_ingestion_spec`: re-loading bank "b1" with
the same declared count (1) is a no-op reporting 0, and on the reload path
question "C" gets a row tagged with "b1". -/
theorem bank_ingestion_witness :
    load_question_bank stB bank1 = (stB, 0) ∧
      ∃ r ∈ (loadBankQuestions stB bank1).1.questions,
        r.question_id = bqC.id ∧ r.bank_id = bank1.bank_id :=
  ⟨(bank_ingestion_spec stB bank1).1 1 rfl (by decide),
    (bank_ingestion_spec stB bank1).2.2.2.2.1 bqC (by decide)⟩

end OpoQuiz
